import Mathlib

/-!
Verification of the host-side serial acquisition protocol of the
2DoFSBP repository.

The protocol is implemented twice, with small variations, in
`src/motor_identification/host/experiment.py` (function `main`) and
`src/motor_identification/host/validate.py`
(function `run_experiment_and_process_data`).  Both scripts:

1. open the serial port and write the single connection-check token 0x01;
2. poll one byte at a time until the byte 0x02 arrives (an unbounded
   `while` loop in both sources);
3. after a user trigger, write 0x03 and require a single 0x04 reply;
4. require a single 0x05 reply (test success) under a long timeout;
5. write 0x06 and require a single 0x07 reply;
6. read the ASCII marker DATA_START, two payloads of 4096 * 4 bytes,
   and the ASCII marker DATA_END (a wrong footer only logs a warning);
7. unpack both payloads as little-endian float32 arrays and zip them
   with the derived time axis.

Bytes are modelled as natural numbers; a transport is a deterministic
oracle giving the bytes returned by each successive read call; pyserial's
guarantee that `read(n)` returns at most `n` bytes is reflected by
truncating the oracle's answer to `n`.  float32 values are modelled by
their 32-bit patterns (naturals below 2^32), which is exact for the
bit-for-bit properties considered here.  The Python handshake loop can
spin forever, so the session is fuel-indexed: outcome `none` means the
handshake loop has not exited within the given number of iterations.
-/

/-! ## Protocol constants (experiment.py lines 10-24, validate.py lines 16-30) -/

def TEST_DATA_LENGTH : Nat := 4096

def SAMPLE_PERIOD_SEC : ℚ := 1 / 100

def HOST_CHECK_CONNECTION : List Nat := [1]

def DEVICE_CHECK_CONNECTION : List Nat := [2]

def HOST_START_TEST : List Nat := [3]

def DEVICE_ACK_START : List Nat := [4]

def DEVICE_TEST_SUCCESS : List Nat := [5]

def HOST_REQUEST_DATA : List Nat := [6]

def DEVICE_DATA_REQUEST_ACK : List Nat := [7]

/-- ASCII bytes of the string DATA_START. -/
def DEVICE_DATA_STREAM_START : List Nat := [68, 65, 84, 65, 95, 83, 84, 65, 82, 84]

/-- ASCII bytes of the string DATA_END. -/
def DEVICE_DATA_STREAM_END : List Nat := [68, 65, 84, 65, 95, 69, 78, 68]

/-- experiment.py line 102: bytes_per_array = TEST_DATA_LENGTH * 4
    (validate.py line 94: bytes_to_read, same value). -/
def bytes_per_array : Nat := TEST_DATA_LENGTH * 4

/-! ## Transport -/

/-- A deterministic byte-stream transport: `readAt k n` is what the k-th
    read call of the session, requesting `n` bytes, returns. -/
structure Transport where
  readAt : Nat → Nat → List Nat

/-- The bytes the session actually receives from the k-th read call:
    pyserial's `ser.read(n)` returns at most `n` bytes, so the oracle's
    answer is truncated to `n`. -/
def tread (t : Transport) (k n : Nat) : List Nat :=
  (t.readAt k n).take n

/-! ## Handshake loop -/

/-- experiment.py lines 47-49 = validate.py lines 53-55:

    response = b''
    while response != DEVICE_CHECK_CONNECTION:
        response = ser.read(1)

    `k` is the index of the next read call.  The loop is fuel-indexed:
    `some j` means the loop exited with `j` the next unused read index,
    `none` means it has not exited within `fuel` iterations (the Python
    loop has no iteration bound and no overall deadline). -/
def handshake (t : Transport) (k : Nat) : Nat → Option Nat
  | 0 => none
  | fuel + 1 =>
      if tread t k 1 = DEVICE_CHECK_CONNECTION then some (k + 1)
      else handshake t (k + 1) fuel

/-! ## Codec -/

/-- Little-endian reassembly of one 32-bit word from four bytes. -/
def leWord (b0 b1 b2 b3 : Nat) : Nat :=
  b0 + 256 * b1 + 65536 * b2 + 16777216 * b3

/-- Interpret a byte list as consecutive little-endian 32-bit words
    (the group-of-4 reinterpretation done by struct.unpack with format
    little-endian float32; float32 values are carried as bit patterns). -/
def decodeChunks : List Nat → List Nat
  | b0 :: b1 :: b2 :: b3 :: rest => leWord b0 b1 b2 b3 :: decodeChunks rest
  | _ => []

/-- struct.unpack of experiment.py lines 124-126 / validate.py lines
    105-107: unpacking `count` little-endian float32 values raises
    struct.error unless the buffer holds exactly count * 4 bytes. -/
def decodeFloatArray (buffer : List Nat) (count : Nat) : Option (List Nat) :=
  if buffer.length = count * 4 then some (decodeChunks buffer) else none

/-- Modelled from the spec: the device-side serializer (the controller
    firmware is not under src/) that encodes float32 values as 4*N
    little-endian bytes, the inverse direction of decodeFloatArray. -/
def encodeFloatArray (vals : List Nat) : List Nat :=
  vals.flatMap fun v => [v % 256, v / 256 % 256, v / 65536 % 256, v / 16777216 % 256]

/-! ## Sample buffer -/

/-- experiment.py line 132 = validate.py line 110:
    time_axis = [i * SAMPLE_PERIOD_SEC for i in range(TEST_DATA_LENGTH)]. -/
def time_axis : List ℚ :=
  (List.range TEST_DATA_LENGTH).map fun i : ℕ => (i : ℚ) * SAMPLE_PERIOD_SEC

/-- The decoded result of a successful transfer: the per-sample time
    axis and the two decoded float32 arrays (as bit patterns), i.e. the
    columns zipped into the CSV (experiment.py lines 132-138) or the
    DataFrame (validate.py lines 110-115). -/
structure SampleBuffer where
  times : List ℚ
  inputs : List Nat
  angles : List Nat

/-! ## Session outcomes -/

/-- Exit points of the protocol part of experiment.py main.
    Each constructor is one return/fall-through point of the source. -/
inductive OutcomeE where
  /-- lines 117-141: both payloads complete; footerOk records whether the
      DATA_END footer matched (false means only a warning was printed). -/
  | success (buf : SampleBuffer) (footerOk : Bool)
  /-- lines 61-63: response to 0x03 was not 0x04. -/
  | ackStartFail
  /-- lines 73-75: response during the long wait was not 0x05. -/
  | testFail
  /-- lines 87-89: response to 0x06 was not 0x07. -/
  | dataAckFail
  /-- lines 97-99: header did not match DATA_START. -/
  | headerFail
  /-- lines 106-108: fewer than bytes_per_array bytes for the input array. -/
  | truncatedInput
  /-- lines 112-114: fewer than bytes_per_array bytes for the angle array. -/
  | truncatedAngle
  /-- a struct.error escaping from lines 125-126 to the generic handler
      at lines 176-177 (shown unreachable after the length guards). -/
  | decodeError

/-- Exit points of the protocol part of validate.py
    run_experiment_and_process_data. -/
inductive OutcomeV where
  /-- lines 102-132: both payloads complete; footerOk as in OutcomeE. -/
  | success (buf : SampleBuffer) (footerOk : Bool)
  /-- lines 65-67: response to 0x03 was not 0x04. -/
  | ackStartFail
  /-- lines 74-76: response during the long wait was not 0x05. -/
  | testFail
  /-- lines 84-86: response to 0x06 was not 0x07. -/
  | dataAckFail
  /-- lines 90-92: header did not match DATA_START. -/
  | headerFail
  /-- lines 98-100: either array shorter than bytes_to_read (validate.py
      reads both arrays before this combined check). -/
  | truncated
  /-- a struct.error escaping from lines 106-107 to the handler at
      lines 134-136 (shown unreachable after the length guard). -/
  | decodeError

/-- Result of the post-handshake part of a session: the outcome, the
    trace of bytes written after the handshake, and the index of the
    next unused read call (so readsUsed - k is how many reads the
    post-handshake part performed). -/
structure StepResult (α : Type) where
  outcome : α
  writes : List Nat
  readsUsed : Nat

/-- Result of a whole session: outcome is none while the handshake loop
    is still polling (it can poll forever), and the full write trace. -/
structure SessionResult (α : Type) where
  outcome : Option α
  writes : List Nat

/-! ## The experiment.py session -/

/-- experiment.py lines 56-126, from the write of HOST_START_TEST to the
    struct.unpack calls, with `k` the next read index after the
    handshake.  The user prompt at line 53 (input) blocks on the human
    and performs no I/O on the transport, so it does not appear. -/
def afterHandshakeE (t : Transport) (k : Nat) : StepResult OutcomeE :=
  if tread t k 1 ≠ DEVICE_ACK_START then
    ⟨.ackStartFail, HOST_START_TEST, k + 1⟩
  else if tread t (k + 1) 1 ≠ DEVICE_TEST_SUCCESS then
    ⟨.testFail, HOST_START_TEST, k + 2⟩
  else if tread t (k + 2) 1 ≠ DEVICE_DATA_REQUEST_ACK then
    ⟨.dataAckFail, HOST_START_TEST ++ HOST_REQUEST_DATA, k + 3⟩
  else if tread t (k + 3) DEVICE_DATA_STREAM_START.length ≠ DEVICE_DATA_STREAM_START then
    ⟨.headerFail, HOST_START_TEST ++ HOST_REQUEST_DATA, k + 4⟩
  else
    let raw_input_data := tread t (k + 4) bytes_per_array
    if raw_input_data.length ≠ bytes_per_array then
      ⟨.truncatedInput, HOST_START_TEST ++ HOST_REQUEST_DATA, k + 5⟩
    else
      let raw_angle_data := tread t (k + 5) bytes_per_array
      if raw_angle_data.length ≠ bytes_per_array then
        ⟨.truncatedAngle, HOST_START_TEST ++ HOST_REQUEST_DATA, k + 6⟩
      else
        let footer := tread t (k + 6) DEVICE_DATA_STREAM_END.length
        let footerOk := footer = DEVICE_DATA_STREAM_END
        match decodeFloatArray raw_input_data TEST_DATA_LENGTH,
              decodeFloatArray raw_angle_data TEST_DATA_LENGTH with
        | some input_values, some angle_values =>
            ⟨.success ⟨time_axis, input_values, angle_values⟩ (if footerOk then true else false),
             HOST_START_TEST ++ HOST_REQUEST_DATA, k + 7⟩
        | _, _ =>
            ⟨.decodeError, HOST_START_TEST ++ HOST_REQUEST_DATA, k + 7⟩

/-- The whole experiment.py protocol session: write 0x01 (line 44), poll
    for 0x02 (lines 47-49), then run the post-handshake part.  While the
    handshake loop is still polling, the only bytes ever written are the
    single HOST_CHECK_CONNECTION token. -/
def sessionE (t : Transport) (fuel : Nat) : SessionResult OutcomeE :=
  match handshake t 0 fuel with
  | none => ⟨none, HOST_CHECK_CONNECTION⟩
  | some k =>
      let r := afterHandshakeE t k
      ⟨some r.outcome, HOST_CHECK_CONNECTION ++ r.writes⟩

/-! ## The validate.py session -/

/-- validate.py lines 62-107: identical control flow to experiment.py
    except that both payload arrays are read before a single combined
    length check (lines 95-100). -/
def afterHandshakeV (t : Transport) (k : Nat) : StepResult OutcomeV :=
  if tread t k 1 ≠ DEVICE_ACK_START then
    ⟨.ackStartFail, HOST_START_TEST, k + 1⟩
  else if tread t (k + 1) 1 ≠ DEVICE_TEST_SUCCESS then
    ⟨.testFail, HOST_START_TEST, k + 2⟩
  else if tread t (k + 2) 1 ≠ DEVICE_DATA_REQUEST_ACK then
    ⟨.dataAckFail, HOST_START_TEST ++ HOST_REQUEST_DATA, k + 3⟩
  else if tread t (k + 3) DEVICE_DATA_STREAM_START.length ≠ DEVICE_DATA_STREAM_START then
    ⟨.headerFail, HOST_START_TEST ++ HOST_REQUEST_DATA, k + 4⟩
  else
    let raw_input := tread t (k + 4) bytes_per_array
    let raw_angle := tread t (k + 5) bytes_per_array
    if raw_input.length ≠ bytes_per_array ∨ raw_angle.length ≠ bytes_per_array then
      ⟨.truncated, HOST_START_TEST ++ HOST_REQUEST_DATA, k + 6⟩
    else
      let footer := tread t (k + 6) DEVICE_DATA_STREAM_END.length
      let footerOk := footer = DEVICE_DATA_STREAM_END
      match decodeFloatArray raw_input TEST_DATA_LENGTH,
            decodeFloatArray raw_angle TEST_DATA_LENGTH with
      | some input_values, some angle_values =>
          ⟨.success ⟨time_axis, input_values, angle_values⟩ (if footerOk then true else false),
           HOST_START_TEST ++ HOST_REQUEST_DATA, k + 7⟩
      | _, _ =>
          ⟨.decodeError, HOST_START_TEST ++ HOST_REQUEST_DATA, k + 7⟩

/-- The whole validate.py protocol session (lines 50-107). -/
def sessionV (t : Transport) (fuel : Nat) : SessionResult OutcomeV :=
  match handshake t 0 fuel with
  | none => ⟨none, HOST_CHECK_CONNECTION⟩
  | some k =>
      let r := afterHandshakeV t k
      ⟨some r.outcome, HOST_CHECK_CONNECTION ++ r.writes⟩

/-! ## Resource handling (experiment.py lines 29-34 and 174-181,
    validate.py lines 37-42 and 134-140) -/

/-- The serial port resource; isOpen mirrors ser.is_open. -/
structure Port where
  isOpen : Bool

/-- The finally block of both scripts: if ser.is_open: ser.close(). -/
def finallyClose (p : Port) : Port :=
  if p.isOpen then ⟨false⟩ else p

/-- How the try body of experiment.py main can hand control to the
    finally block: a normal exit (any session result, success or typed
    failure) or a raised exception caught by the handlers at
    lines 174-177. -/
inductive BodyResult (α : Type) where
  | normal (r : SessionResult α)
  | raised

/-- experiment.py main after the port opened (line 30 succeeded, so the
    port starts open): run the try body — either the protocol session
    completes normally or an exception is raised (exc true) — then the
    finally block closes the port before control returns. -/
def mainE (t : Transport) (fuel : Nat) (exc : Bool) : BodyResult OutcomeE × Port :=
  let p : Port := ⟨true⟩
  let body : BodyResult OutcomeE := if exc then .raised else .normal (sessionE t fuel)
  (body, finallyClose p)

/-- validate.py run_experiment_and_process_data, same try/finally shape
    (lines 44 and 137-140). -/
def mainV (t : Transport) (fuel : Nat) (exc : Bool) : BodyResult OutcomeV × Port :=
  let p : Port := ⟨true⟩
  let body : BodyResult OutcomeV := if exc then .raised else .normal (sessionV t fuel)
  (body, finallyClose p)

/-! ## Basic lemmas about reads and the handshake loop -/

theorem tread_length_le (t : Transport) (k n : Nat) : (tread t k n).length ≤ n := by
  simp only [tread, List.length_take]
  exact Nat.min_le_left _ _

/-- One unfolding of the handshake loop. -/
theorem handshake_succ (t : Transport) (k fuel : Nat) :
    handshake t k (fuel + 1) =
      if tread t k 1 = DEVICE_CHECK_CONNECTION then some (k + 1)
      else handshake t (k + 1) fuel := rfl

/-- If no read call ever yields the byte 0x02, the handshake loop never
    exits, whatever the iteration bound. -/
theorem handshake_none (t : Transport)
    (h : ∀ j, tread t j 1 ≠ DEVICE_CHECK_CONNECTION) :
    ∀ fuel k, handshake t k fuel = none := by
  intro fuel
  induction fuel with
  | zero => intro k; rfl
  | succ n ih =>
      intro k
      simp only [handshake, if_neg (h k)]
      exact ih (k + 1)

/-- The handshake loop skips any finite run of non-0x02 answers and
    exits as soon as 0x02 arrives. -/
theorem handshake_skip (t : Transport) :
    ∀ m k fuel, (∀ j, j < m → tread t (k + j) 1 ≠ DEVICE_CHECK_CONNECTION) →
    tread t (k + m) 1 = DEVICE_CHECK_CONNECTION →
    handshake t k (m + fuel + 1) = some (k + m + 1) := by
  intro m
  induction m with
  | zero =>
      intro k fuel _ hhit
      simp only [Nat.add_zero] at hhit
      simp [handshake, hhit]
  | succ n ih =>
      intro k fuel hmiss hhit
      have h0 : tread t k 1 ≠ DEVICE_CHECK_CONNECTION := by
        simpa using hmiss 0 (Nat.succ_pos n)
      have hfuel : n + 1 + fuel + 1 = (n + fuel + 1) + 1 := by omega
      rw [hfuel, handshake_succ, if_neg h0]
      have hmiss' : ∀ j, j < n → tread t (k + 1 + j) 1 ≠ DEVICE_CHECK_CONNECTION := by
        intro j hj
        have := hmiss (j + 1) (by omega)
        simpa [Nat.add_assoc, Nat.add_comm 1 j] using this
      have hhit' : tread t (k + 1 + n) 1 = DEVICE_CHECK_CONNECTION := by
        simpa [Nat.add_assoc, Nat.add_comm 1 n] using hhit
      rw [ih (k + 1) fuel hmiss' hhit']
      simp only [Option.some.injEq]
      omega

/-! ## Branch lemmas for the experiment.py post-handshake part -/

theorem afterHandshakeE_ackStartFail (t : Transport) (k : Nat)
    (h : tread t k 1 ≠ DEVICE_ACK_START) :
    afterHandshakeE t k = ⟨.ackStartFail, HOST_START_TEST, k + 1⟩ := by
  simp [afterHandshakeE, h]

theorem afterHandshakeE_testFail (t : Transport) (k : Nat)
    (h4 : tread t k 1 = DEVICE_ACK_START)
    (h : tread t (k + 1) 1 ≠ DEVICE_TEST_SUCCESS) :
    afterHandshakeE t k = ⟨.testFail, HOST_START_TEST, k + 2⟩ := by
  simp [afterHandshakeE, h4, h]

theorem afterHandshakeE_dataAckFail (t : Transport) (k : Nat)
    (h4 : tread t k 1 = DEVICE_ACK_START)
    (h5 : tread t (k + 1) 1 = DEVICE_TEST_SUCCESS)
    (h : tread t (k + 2) 1 ≠ DEVICE_DATA_REQUEST_ACK) :
    afterHandshakeE t k = ⟨.dataAckFail, HOST_START_TEST ++ HOST_REQUEST_DATA, k + 3⟩ := by
  simp [afterHandshakeE, h4, h5, h]

theorem afterHandshakeE_headerFail (t : Transport) (k : Nat)
    (h4 : tread t k 1 = DEVICE_ACK_START)
    (h5 : tread t (k + 1) 1 = DEVICE_TEST_SUCCESS)
    (h7 : tread t (k + 2) 1 = DEVICE_DATA_REQUEST_ACK)
    (h : tread t (k + 3) DEVICE_DATA_STREAM_START.length ≠ DEVICE_DATA_STREAM_START) :
    afterHandshakeE t k = ⟨.headerFail, HOST_START_TEST ++ HOST_REQUEST_DATA, k + 4⟩ := by
  simp [afterHandshakeE, h4, h5, h7, h]

theorem afterHandshakeE_truncatedInput (t : Transport) (k : Nat)
    (h4 : tread t k 1 = DEVICE_ACK_START)
    (h5 : tread t (k + 1) 1 = DEVICE_TEST_SUCCESS)
    (h7 : tread t (k + 2) 1 = DEVICE_DATA_REQUEST_ACK)
    (hh : tread t (k + 3) DEVICE_DATA_STREAM_START.length = DEVICE_DATA_STREAM_START)
    (h : (tread t (k + 4) bytes_per_array).length ≠ bytes_per_array) :
    afterHandshakeE t k = ⟨.truncatedInput, HOST_START_TEST ++ HOST_REQUEST_DATA, k + 5⟩ := by
  simp [afterHandshakeE, h4, h5, h7, hh, h]

theorem afterHandshakeE_truncatedAngle (t : Transport) (k : Nat)
    (h4 : tread t k 1 = DEVICE_ACK_START)
    (h5 : tread t (k + 1) 1 = DEVICE_TEST_SUCCESS)
    (h7 : tread t (k + 2) 1 = DEVICE_DATA_REQUEST_ACK)
    (hh : tread t (k + 3) DEVICE_DATA_STREAM_START.length = DEVICE_DATA_STREAM_START)
    (hi : (tread t (k + 4) bytes_per_array).length = bytes_per_array)
    (h : (tread t (k + 5) bytes_per_array).length ≠ bytes_per_array) :
    afterHandshakeE t k = ⟨.truncatedAngle, HOST_START_TEST ++ HOST_REQUEST_DATA, k + 6⟩ := by
  simp [afterHandshakeE, h4, h5, h7, hh, hi, h]

theorem afterHandshakeE_success (t : Transport) (k : Nat)
    (h4 : tread t k 1 = DEVICE_ACK_START)
    (h5 : tread t (k + 1) 1 = DEVICE_TEST_SUCCESS)
    (h7 : tread t (k + 2) 1 = DEVICE_DATA_REQUEST_ACK)
    (hh : tread t (k + 3) DEVICE_DATA_STREAM_START.length = DEVICE_DATA_STREAM_START)
    (hi : (tread t (k + 4) bytes_per_array).length = bytes_per_array)
    (ha : (tread t (k + 5) bytes_per_array).length = bytes_per_array) :
    afterHandshakeE t k =
      ⟨.success
        ⟨time_axis, decodeChunks (tread t (k + 4) bytes_per_array),
          decodeChunks (tread t (k + 5) bytes_per_array)⟩
        (if tread t (k + 6) DEVICE_DATA_STREAM_END.length = DEVICE_DATA_STREAM_END
          then true else false),
       HOST_START_TEST ++ HOST_REQUEST_DATA, k + 7⟩ := by
  have hi' : (tread t (k + 4) (TEST_DATA_LENGTH * 4)).length = TEST_DATA_LENGTH * 4 := hi
  have ha' : (tread t (k + 5) (TEST_DATA_LENGTH * 4)).length = TEST_DATA_LENGTH * 4 := ha
  simp [afterHandshakeE, h4, h5, h7, hh, decodeFloatArray, bytes_per_array, hi', ha']

/-! ## Branch lemmas for the validate.py post-handshake part -/

theorem afterHandshakeV_ackStartFail (t : Transport) (k : Nat)
    (h : tread t k 1 ≠ DEVICE_ACK_START) :
    afterHandshakeV t k = ⟨.ackStartFail, HOST_START_TEST, k + 1⟩ := by
  simp [afterHandshakeV, h]

theorem afterHandshakeV_testFail (t : Transport) (k : Nat)
    (h4 : tread t k 1 = DEVICE_ACK_START)
    (h : tread t (k + 1) 1 ≠ DEVICE_TEST_SUCCESS) :
    afterHandshakeV t k = ⟨.testFail, HOST_START_TEST, k + 2⟩ := by
  simp [afterHandshakeV, h4, h]

theorem afterHandshakeV_dataAckFail (t : Transport) (k : Nat)
    (h4 : tread t k 1 = DEVICE_ACK_START)
    (h5 : tread t (k + 1) 1 = DEVICE_TEST_SUCCESS)
    (h : tread t (k + 2) 1 ≠ DEVICE_DATA_REQUEST_ACK) :
    afterHandshakeV t k = ⟨.dataAckFail, HOST_START_TEST ++ HOST_REQUEST_DATA, k + 3⟩ := by
  simp [afterHandshakeV, h4, h5, h]

theorem afterHandshakeV_truncated (t : Transport) (k : Nat)
    (h4 : tread t k 1 = DEVICE_ACK_START)
    (h5 : tread t (k + 1) 1 = DEVICE_TEST_SUCCESS)
    (h7 : tread t (k + 2) 1 = DEVICE_DATA_REQUEST_ACK)
    (hh : tread t (k + 3) DEVICE_DATA_STREAM_START.length = DEVICE_DATA_STREAM_START)
    (h : (tread t (k + 4) bytes_per_array).length ≠ bytes_per_array ∨
         (tread t (k + 5) bytes_per_array).length ≠ bytes_per_array) :
    afterHandshakeV t k = ⟨.truncated, HOST_START_TEST ++ HOST_REQUEST_DATA, k + 6⟩ := by
  simp only [afterHandshakeV, h4, h5, h7, hh]
  simp [h]

theorem afterHandshakeV_success (t : Transport) (k : Nat)
    (h4 : tread t k 1 = DEVICE_ACK_START)
    (h5 : tread t (k + 1) 1 = DEVICE_TEST_SUCCESS)
    (h7 : tread t (k + 2) 1 = DEVICE_DATA_REQUEST_ACK)
    (hh : tread t (k + 3) DEVICE_DATA_STREAM_START.length = DEVICE_DATA_STREAM_START)
    (hi : (tread t (k + 4) bytes_per_array).length = bytes_per_array)
    (ha : (tread t (k + 5) bytes_per_array).length = bytes_per_array) :
    afterHandshakeV t k =
      ⟨.success
        ⟨time_axis, decodeChunks (tread t (k + 4) bytes_per_array),
          decodeChunks (tread t (k + 5) bytes_per_array)⟩
        (if tread t (k + 6) DEVICE_DATA_STREAM_END.length = DEVICE_DATA_STREAM_END
          then true else false),
       HOST_START_TEST ++ HOST_REQUEST_DATA, k + 7⟩ := by
  have hi' : (tread t (k + 4) (TEST_DATA_LENGTH * 4)).length = TEST_DATA_LENGTH * 4 := hi
  have ha' : (tread t (k + 5) (TEST_DATA_LENGTH * 4)).length = TEST_DATA_LENGTH * 4 := ha
  simp [afterHandshakeV, h4, h5, h7, hh, decodeFloatArray, bytes_per_array, hi', ha']

/-! ## Session unfolding lemmas -/

theorem sessionE_of_handshake_none (t : Transport) (fuel : Nat)
    (h : handshake t 0 fuel = none) :
    sessionE t fuel = ⟨none, HOST_CHECK_CONNECTION⟩ := by
  simp [sessionE, h]

theorem sessionE_of_handshake_some (t : Transport) (fuel k : Nat)
    (h : handshake t 0 fuel = some k) :
    sessionE t fuel =
      ⟨some (afterHandshakeE t k).outcome,
       HOST_CHECK_CONNECTION ++ (afterHandshakeE t k).writes⟩ := by
  simp [sessionE, h]

theorem sessionV_of_handshake_none (t : Transport) (fuel : Nat)
    (h : handshake t 0 fuel = none) :
    sessionV t fuel = ⟨none, HOST_CHECK_CONNECTION⟩ := by
  simp [sessionV, h]

theorem sessionV_of_handshake_some (t : Transport) (fuel k : Nat)
    (h : handshake t 0 fuel = some k) :
    sessionV t fuel =
      ⟨some (afterHandshakeV t k).outcome,
       HOST_CHECK_CONNECTION ++ (afterHandshakeV t k).writes⟩ := by
  simp [sessionV, h]

/-! ## Codec lemmas -/

theorem leWord_split (v : Nat) (hv : v < 4294967296) :
    leWord (v % 256) (v / 256 % 256) (v / 65536 % 256) (v / 16777216 % 256) = v := by
  unfold leWord
  omega

theorem decodeChunks_length : ∀ l : List Nat, (decodeChunks l).length = l.length / 4
  | [] => rfl
  | [_] => by simp [decodeChunks]
  | [_, _] => by simp [decodeChunks]
  | [_, _, _] => by simp [decodeChunks]
  | _ :: _ :: _ :: _ :: rest => by
      have ih := decodeChunks_length rest
      simp only [decodeChunks, List.length_cons, ih]
      omega

theorem encodeFloatArray_length (vals : List Nat) :
    (encodeFloatArray vals).length = vals.length * 4 := by
  induction vals with
  | nil => rfl
  | cons v vs ih =>
      simp only [encodeFloatArray, List.flatMap_cons] at ih ⊢
      simp [List.length_append, ih]
      omega

theorem decodeChunks_encodeFloatArray (vals : List Nat)
    (hb : ∀ v ∈ vals, v < 4294967296) :
    decodeChunks (encodeFloatArray vals) = vals := by
  induction vals with
  | nil => rfl
  | cons v vs ih =>
      have hv : v < 4294967296 := hb v (List.mem_cons_self v vs)
      have hvs : ∀ w ∈ vs, w < 4294967296 := fun w hw => hb w (List.mem_cons_of_mem v hw)
      simp only [encodeFloatArray, List.flatMap_cons, List.cons_append, List.nil_append]
      show decodeChunks (v % 256 :: v / 256 % 256 :: v / 65536 % 256 :: v / 16777216 % 256 ::
        vs.flatMap fun w => [w % 256, w / 256 % 256, w / 65536 % 256, w / 16777216 % 256]) = v :: vs
      rw [decodeChunks]
      rw [show (vs.flatMap fun w => [w % 256, w / 256 % 256, w / 65536 % 256, w / 16777216 % 256])
          = encodeFloatArray vs from rfl]
      rw [ih hvs, leWord_split v hv]

/-! ## Time axis lemmas -/

theorem time_axis_length : time_axis.length = TEST_DATA_LENGTH := by
  simp only [time_axis, List.length_map, List.length_range]

theorem time_axis_get (i : Nat) (h : i < time_axis.length) :
    time_axis.get ⟨i, h⟩ = (i : ℚ) * SAMPLE_PERIOD_SEC := by
  simp only [time_axis, List.get_eq_getElem, List.getElem_map, List.getElem_range]

/-! ## Inversion: what a successful session result must look like -/

theorem decodeFloatArray_some_length (buffer : List Nat) (count : Nat) (vals : List Nat)
    (h : decodeFloatArray buffer count = some vals) : vals.length = count := by
  unfold decodeFloatArray at h
  split_ifs at h with hl
  injection h with h
  subst h
  rw [decodeChunks_length, hl]
  omega

set_option maxRecDepth 8192 in
theorem afterHandshakeE_success_inv (t : Transport) (k : Nat) (buf : SampleBuffer) (fOk : Bool)
    (h : (afterHandshakeE t k).outcome = .success buf fOk) :
    buf.times = time_axis ∧ buf.inputs.length = TEST_DATA_LENGTH ∧
      buf.angles.length = TEST_DATA_LENGTH := by
  by_cases h4 : tread t k 1 = DEVICE_ACK_START
  · by_cases h5 : tread t (k + 1) 1 = DEVICE_TEST_SUCCESS
    · by_cases h7 : tread t (k + 2) 1 = DEVICE_DATA_REQUEST_ACK
      · by_cases hh : tread t (k + 3) DEVICE_DATA_STREAM_START.length = DEVICE_DATA_STREAM_START
        · by_cases hi : (tread t (k + 4) bytes_per_array).length = bytes_per_array
          · by_cases ha : (tread t (k + 5) bytes_per_array).length = bytes_per_array
            · rw [afterHandshakeE_success t k h4 h5 h7 hh hi ha] at h
              simp only [OutcomeE.success.injEq] at h
              obtain ⟨hbuf, _⟩ := h
              subst hbuf
              refine ⟨rfl, ?_, ?_⟩
              · rw [decodeChunks_length, hi]
                decide
              · rw [decodeChunks_length, ha]
                decide
            · rw [afterHandshakeE_truncatedAngle t k h4 h5 h7 hh hi ha] at h
              simp at h
          · rw [afterHandshakeE_truncatedInput t k h4 h5 h7 hh hi] at h
            simp at h
        · rw [afterHandshakeE_headerFail t k h4 h5 h7 hh] at h
          simp at h
      · rw [afterHandshakeE_dataAckFail t k h4 h5 h7] at h
        simp at h
    · rw [afterHandshakeE_testFail t k h4 h5] at h
      simp at h
  · rw [afterHandshakeE_ackStartFail t k h4] at h
    simp at h

set_option maxRecDepth 8192 in
theorem afterHandshakeV_success_inv (t : Transport) (k : Nat) (buf : SampleBuffer) (fOk : Bool)
    (h : (afterHandshakeV t k).outcome = .success buf fOk) :
    buf.times = time_axis ∧ buf.inputs.length = TEST_DATA_LENGTH ∧
      buf.angles.length = TEST_DATA_LENGTH := by
  by_cases h4 : tread t k 1 = DEVICE_ACK_START
  · by_cases h5 : tread t (k + 1) 1 = DEVICE_TEST_SUCCESS
    · by_cases h7 : tread t (k + 2) 1 = DEVICE_DATA_REQUEST_ACK
      · by_cases hh : tread t (k + 3) DEVICE_DATA_STREAM_START.length = DEVICE_DATA_STREAM_START
        · by_cases hi : (tread t (k + 4) bytes_per_array).length = bytes_per_array
          · by_cases ha : (tread t (k + 5) bytes_per_array).length = bytes_per_array
            · rw [afterHandshakeV_success t k h4 h5 h7 hh hi ha] at h
              simp only [OutcomeV.success.injEq] at h
              obtain ⟨hbuf, _⟩ := h
              subst hbuf
              refine ⟨rfl, ?_, ?_⟩
              · rw [decodeChunks_length, hi]
                decide
              · rw [decodeChunks_length, ha]
                decide
            · rw [afterHandshakeV_truncated t k h4 h5 h7 hh (Or.inr ha)] at h
              simp at h
          · rw [afterHandshakeV_truncated t k h4 h5 h7 hh (Or.inl hi)] at h
            simp at h
        · by_cases hi : (tread t (k + 4) bytes_per_array).length = bytes_per_array
          all_goals
            rw [show afterHandshakeV t k =
              ⟨.headerFail, HOST_START_TEST ++ HOST_REQUEST_DATA, k + 4⟩ from by
                simp [afterHandshakeV, h4, h5, h7, hh]] at h
          all_goals simp at h
      · rw [afterHandshakeV_dataAckFail t k h4 h5 h7] at h
        simp at h
    · rw [afterHandshakeV_testFail t k h4 h5] at h
      simp at h
  · rw [afterHandshakeV_ackStartFail t k h4] at h
    simp at h

/-! ## Concrete transports (test devices) -/

/-- If the oracle's answer fits the request, tread returns it unchanged. -/
theorem tread_of_readAt (t : Transport) (k n : Nat) (l : List Nat)
    (h : t.readAt k n = l) (hlen : l.length ≤ n) : tread t k n = l := by
  rw [tread, h]
  exact List.take_of_length_le hlen

/-- A device that only ever answers the single byte 0x00. -/
def tZero : Transport := ⟨fun _ _ => [0]⟩

/-- An ideal device: correct acknowledgements, correct framing, and two
    all-zero payloads of exactly bytes_per_array bytes. -/
def tGood : Transport :=
  ⟨fun k _ =>
    match k with
    | 0 => DEVICE_CHECK_CONNECTION
    | 1 => DEVICE_ACK_START
    | 2 => DEVICE_TEST_SUCCESS
    | 3 => DEVICE_DATA_REQUEST_ACK
    | 4 => DEVICE_DATA_STREAM_START
    | 5 => List.replicate bytes_per_array 0
    | 6 => List.replicate bytes_per_array 0
    | _ => DEVICE_DATA_STREAM_END⟩

/-- Like tGood, but the stream-end footer is the single wrong byte 0x00. -/
def tBadFooter : Transport :=
  ⟨fun k _ =>
    match k with
    | 0 => DEVICE_CHECK_CONNECTION
    | 1 => DEVICE_ACK_START
    | 2 => DEVICE_TEST_SUCCESS
    | 3 => DEVICE_DATA_REQUEST_ACK
    | 4 => DEVICE_DATA_STREAM_START
    | 5 => List.replicate bytes_per_array 0
    | 6 => List.replicate bytes_per_array 0
    | _ => [0]⟩

/-- Like tGood, but only 100 of the bytes_per_array input-payload bytes
    ever arrive. -/
def tShortInput : Transport :=
  ⟨fun k _ =>
    match k with
    | 0 => DEVICE_CHECK_CONNECTION
    | 1 => DEVICE_ACK_START
    | 2 => DEVICE_TEST_SUCCESS
    | 3 => DEVICE_DATA_REQUEST_ACK
    | 4 => DEVICE_DATA_STREAM_START
    | 5 => List.replicate 100 0
    | _ => List.replicate bytes_per_array 0⟩

/-- Like tGood, but only 100 of the bytes_per_array angle-payload bytes
    ever arrive. -/
def tShortAngle : Transport :=
  ⟨fun k _ =>
    match k with
    | 0 => DEVICE_CHECK_CONNECTION
    | 1 => DEVICE_ACK_START
    | 2 => DEVICE_TEST_SUCCESS
    | 3 => DEVICE_DATA_REQUEST_ACK
    | 4 => DEVICE_DATA_STREAM_START
    | 5 => List.replicate bytes_per_array 0
    | 6 => List.replicate 100 0
    | _ => List.replicate bytes_per_array 0⟩

/-- A device that confirms the connection and then answers every read
    with the single wrong byte 0x00. -/
def tWrongAck : Transport :=
  ⟨fun k _ => if k = 0 then DEVICE_CHECK_CONNECTION else [0]⟩

/-- A device that confirms the connection and then goes silent: every
    later read times out and returns no bytes at all. -/
def tSilent : Transport :=
  ⟨fun k _ => if k = 0 then DEVICE_CHECK_CONNECTION else []⟩

/-- A device that emits two bytes of boot chatter before confirming the
    connection, and then answers the wrong byte 0x00 at the start step. -/
def tChatter : Transport :=
  ⟨fun k _ =>
    match k with
    | 0 => [9]
    | 1 => [9]
    | 2 => DEVICE_CHECK_CONNECTION
    | _ => [0]⟩

theorem tGood_read5 : tread tGood 5 bytes_per_array = List.replicate bytes_per_array 0 :=
  tread_of_readAt tGood 5 bytes_per_array _ rfl (by simp)

theorem tGood_read6 : tread tGood 6 bytes_per_array = List.replicate bytes_per_array 0 :=
  tread_of_readAt tGood 6 bytes_per_array _ rfl (by simp)

theorem tBadFooter_read5 : tread tBadFooter 5 bytes_per_array = List.replicate bytes_per_array 0 :=
  tread_of_readAt tBadFooter 5 bytes_per_array _ rfl (by simp)

theorem tBadFooter_read6 : tread tBadFooter 6 bytes_per_array = List.replicate bytes_per_array 0 :=
  tread_of_readAt tBadFooter 6 bytes_per_array _ rfl (by simp)

theorem tShortInput_read5 : tread tShortInput 5 bytes_per_array = List.replicate 100 0 :=
  tread_of_readAt tShortInput 5 bytes_per_array _ rfl (by simp [bytes_per_array, TEST_DATA_LENGTH])

theorem tShortAngle_read5 : tread tShortAngle 5 bytes_per_array = List.replicate bytes_per_array 0 :=
  tread_of_readAt tShortAngle 5 bytes_per_array _ rfl (by simp)

theorem tShortAngle_read6 : tread tShortAngle 6 bytes_per_array = List.replicate 100 0 :=
  tread_of_readAt tShortAngle 6 bytes_per_array _ rfl (by simp [bytes_per_array, TEST_DATA_LENGTH])

/-! ## Claim C1 -/

/-- The failure mode the counterexample exhibits: on this transport the
    handshake loop of both scripts never exits — however many loop
    iterations are allowed, neither session produces any outcome, and in
    particular no ConnectTimeout failure (no such exit exists in either
    source; the loop at experiment.py lines 48-49 / validate.py lines
    54-55 has no overall deadline). -/
def handshakeNeverExits (t : Transport) : Prop :=
  ∀ fuel, (sessionE t fuel).outcome = none ∧ (sessionV t fuel).outcome = none

/-- C1 counterexample: a transport whose reads always answer the byte
    0x00 (never 0x02) makes the handshake spin forever; the session
    never terminates, so it never fails with ConnectTimeout. -/
theorem c1_counterexample : handshakeNeverExits tZero := by
  intro fuel
  have h : ∀ j, tread tZero j 1 ≠ DEVICE_CHECK_CONNECTION := by
    intro j
    simp [tread, tZero, DEVICE_CHECK_CONNECTION]
  have hn := handshake_none tZero h fuel 0
  exact ⟨by rw [sessionE_of_handshake_none tZero fuel hn],
         by rw [sessionV_of_handshake_none tZero fuel hn]⟩

/-- C1 (amended): for every transport whose reads never return the byte
    0x02, the handshake loop never exits — the session produces no
    outcome however many loop iterations are allowed — and the host
    writes no bytes after the single 0x01 connection-check token. -/
theorem c1_handshake_never_exits_writes_only_0x01 (t : Transport) (fuel : Nat)
    (h : ∀ j, tread t j 1 ≠ DEVICE_CHECK_CONNECTION) :
    sessionE t fuel = ⟨none, HOST_CHECK_CONNECTION⟩ ∧
    sessionV t fuel = ⟨none, HOST_CHECK_CONNECTION⟩ :=
  ⟨sessionE_of_handshake_none t fuel (handshake_none t h fuel 0),
   sessionV_of_handshake_none t fuel (handshake_none t h fuel 0)⟩

theorem c1_witness :
    (∀ j, tread tZero j 1 ≠ DEVICE_CHECK_CONNECTION) ∧
    sessionE tZero 5 = ⟨none, HOST_CHECK_CONNECTION⟩ ∧
    sessionV tZero 5 = ⟨none, HOST_CHECK_CONNECTION⟩ := by
  have h : ∀ j, tread tZero j 1 ≠ DEVICE_CHECK_CONNECTION := by
    intro j
    simp [tread, tZero, DEVICE_CHECK_CONNECTION]
  obtain ⟨h1, h2⟩ := c1_handshake_never_exits_writes_only_0x01 tZero 5 h
  exact ⟨h, h1, h2⟩

/-! ## Claim C6 -/

/-- C6: encoding any TEST_DATA_LENGTH float32 values (32-bit patterns)
    as 4*N little-endian bytes and decoding them through the codec
    reproduces the original values bit-for-bit. -/
theorem c6_codec_roundtrip (vals : List Nat)
    (hlen : vals.length = TEST_DATA_LENGTH)
    (hb : ∀ v ∈ vals, v < 4294967296) :
    decodeFloatArray (encodeFloatArray vals) TEST_DATA_LENGTH = some vals := by
  unfold decodeFloatArray
  rw [encodeFloatArray_length, hlen, if_pos rfl, decodeChunks_encodeFloatArray vals hb]

theorem c6_witness :
    (List.replicate TEST_DATA_LENGTH 0).length = TEST_DATA_LENGTH ∧
    (∀ v ∈ List.replicate TEST_DATA_LENGTH 0, v < 4294967296) ∧
    decodeFloatArray (encodeFloatArray (List.replicate TEST_DATA_LENGTH 0)) TEST_DATA_LENGTH =
      some (List.replicate TEST_DATA_LENGTH 0) := by
  have hlen : (List.replicate TEST_DATA_LENGTH 0).length = TEST_DATA_LENGTH := by simp
  have hb : ∀ v ∈ List.replicate TEST_DATA_LENGTH 0, v < 4294967296 := by
    intro v hv
    rw [List.eq_of_mem_replicate hv]
    decide
  exact ⟨hlen, hb, c6_codec_roundtrip _ hlen hb⟩

/-! ## Claim C8 -/

/-- C8: on every exit path of the try body — a normal exit with any
    session result (success or typed failure) or a raised exception —
    the finally block has closed the serial port before either script
    returns control to its caller. -/
theorem c8_transport_closed_on_every_exit (t : Transport) (fuel : Nat) (exc : Bool) :
    ((mainE t fuel exc).2).isOpen = false ∧ ((mainV t fuel exc).2).isOpen = false :=
  ⟨rfl, rfl⟩

/-! ## Claim C2 -/

/-- C2: once the session has reached the transfer phase, an input array
    delivering fewer than bytes_per_array bytes makes experiment.py fail
    at its input-length guard and validate.py fail at its combined
    length guard; a full input array followed by a short angle array
    fails likewise; in all cases no success outcome — hence no
    SampleBuffer — is produced. -/
theorem c2_truncated_transfer (t : Transport) (fuel k : Nat)
    (hk : handshake t 0 fuel = some k)
    (h4 : tread t k 1 = DEVICE_ACK_START)
    (h5 : tread t (k + 1) 1 = DEVICE_TEST_SUCCESS)
    (h7 : tread t (k + 2) 1 = DEVICE_DATA_REQUEST_ACK)
    (hh : tread t (k + 3) DEVICE_DATA_STREAM_START.length = DEVICE_DATA_STREAM_START) :
    ((tread t (k + 4) bytes_per_array).length < bytes_per_array →
      (sessionE t fuel).outcome = some .truncatedInput ∧
      (sessionV t fuel).outcome = some .truncated ∧
      (∀ buf fOk, (sessionE t fuel).outcome ≠ some (.success buf fOk)) ∧
      (∀ buf fOk, (sessionV t fuel).outcome ≠ some (.success buf fOk))) ∧
    ((tread t (k + 4) bytes_per_array).length = bytes_per_array →
      (tread t (k + 5) bytes_per_array).length < bytes_per_array →
      (sessionE t fuel).outcome = some .truncatedAngle ∧
      (sessionV t fuel).outcome = some .truncated ∧
      (∀ buf fOk, (sessionE t fuel).outcome ≠ some (.success buf fOk)) ∧
      (∀ buf fOk, (sessionV t fuel).outcome ≠ some (.success buf fOk))) := by
  constructor
  · intro hi
    have hi' : (tread t (k + 4) bytes_per_array).length ≠ bytes_per_array := Nat.ne_of_lt hi
    have he := afterHandshakeE_truncatedInput t k h4 h5 h7 hh hi'
    have hv := afterHandshakeV_truncated t k h4 h5 h7 hh (Or.inl hi')
    rw [sessionE_of_handshake_some t fuel k hk, sessionV_of_handshake_some t fuel k hk, he, hv]
    refine ⟨rfl, rfl, ?_, ?_⟩ <;> intro buf fOk <;> simp
  · intro hi ha
    have ha' : (tread t (k + 5) bytes_per_array).length ≠ bytes_per_array := Nat.ne_of_lt ha
    have he := afterHandshakeE_truncatedAngle t k h4 h5 h7 hh hi ha'
    have hv := afterHandshakeV_truncated t k h4 h5 h7 hh (Or.inr ha')
    rw [sessionE_of_handshake_some t fuel k hk, sessionV_of_handshake_some t fuel k hk, he, hv]
    refine ⟨rfl, rfl, ?_, ?_⟩ <;> intro buf fOk <;> simp

theorem c2_witness :
    (tread tShortInput 5 bytes_per_array).length < bytes_per_array ∧
    (sessionE tShortInput 1).outcome = some OutcomeE.truncatedInput ∧
    (sessionV tShortInput 1).outcome = some OutcomeV.truncated ∧
    (tread tShortAngle 6 bytes_per_array).length < bytes_per_array ∧
    (sessionE tShortAngle 1).outcome = some OutcomeE.truncatedAngle ∧
    (sessionV tShortAngle 1).outcome = some OutcomeV.truncated := by
  have hk : handshake tShortInput 0 1 = some 1 := by decide
  have h4 : tread tShortInput 1 1 = DEVICE_ACK_START := by decide
  have h5 : tread tShortInput 2 1 = DEVICE_TEST_SUCCESS := by decide
  have h7 : tread tShortInput 3 1 = DEVICE_DATA_REQUEST_ACK := by decide
  have hh : tread tShortInput 4 DEVICE_DATA_STREAM_START.length = DEVICE_DATA_STREAM_START := by
    decide
  have hi : (tread tShortInput 5 bytes_per_array).length < bytes_per_array := by
    rw [tShortInput_read5, List.length_replicate]
    decide
  obtain ⟨ha1, ha2, -, -⟩ := (c2_truncated_transfer tShortInput 1 1 hk h4 h5 h7 hh).1 hi
  have hk2 : handshake tShortAngle 0 1 = some 1 := by decide
  have h42 : tread tShortAngle 1 1 = DEVICE_ACK_START := by decide
  have h52 : tread tShortAngle 2 1 = DEVICE_TEST_SUCCESS := by decide
  have h72 : tread tShortAngle 3 1 = DEVICE_DATA_REQUEST_ACK := by decide
  have hh2 : tread tShortAngle 4 DEVICE_DATA_STREAM_START.length = DEVICE_DATA_STREAM_START := by
    decide
  have hi2 : (tread tShortAngle 5 bytes_per_array).length = bytes_per_array := by
    rw [tShortAngle_read5, List.length_replicate]
  have ha' : (tread tShortAngle 6 bytes_per_array).length < bytes_per_array := by
    rw [tShortAngle_read6, List.length_replicate]
    decide
  obtain ⟨hb1, hb2, -, -⟩ :=
    (c2_truncated_transfer tShortAngle 1 1 hk2 h42 h52 h72 hh2).2 hi2 ha'
  exact ⟨hi, ha1, ha2, ha', hb1, hb2⟩

/-! ## Claim C3 -/

/-- C3: a single wrong byte at the start-acknowledge step makes both
    sessions fail at the start-mismatch branch (the ProtocolMismatch of
    the spec), not at the later test branch (TestFailed/TestTimeout),
    and the post-handshake part stops after exactly that one read — no
    retry of the read, no further reads. -/
theorem c3_wrong_start_ack_is_mismatch (t : Transport) (fuel k b : Nat)
    (hk : handshake t 0 fuel = some k)
    (hb : tread t k 1 = [b]) (hb4 : b ≠ 4) :
    (sessionE t fuel).outcome = some .ackStartFail ∧
    (sessionE t fuel).outcome ≠ some .testFail ∧
    (afterHandshakeE t k).readsUsed = k + 1 ∧
    (sessionV t fuel).outcome = some .ackStartFail ∧
    (afterHandshakeV t k).readsUsed = k + 1 := by
  have hne : tread t k 1 ≠ DEVICE_ACK_START := by
    rw [hb, DEVICE_ACK_START]
    simp [hb4]
  have he := afterHandshakeE_ackStartFail t k hne
  have hv := afterHandshakeV_ackStartFail t k hne
  rw [sessionE_of_handshake_some t fuel k hk, sessionV_of_handshake_some t fuel k hk, he, hv]
  exact ⟨rfl, by simp, rfl, rfl, rfl⟩

theorem c3_witness :
    tread tWrongAck 1 1 = [0] ∧ (0 : Nat) ≠ 4 ∧
    (sessionE tWrongAck 1).outcome = some OutcomeE.ackStartFail ∧
    (sessionE tWrongAck 1).outcome ≠ some OutcomeE.testFail ∧
    (afterHandshakeE tWrongAck 1).readsUsed = 2 := by
  have hk : handshake tWrongAck 0 1 = some 1 := by decide
  have hb : tread tWrongAck 1 1 = [0] := by decide
  have hb4 : (0 : Nat) ≠ 4 := by decide
  obtain ⟨h1, h2, h3, -, -⟩ := c3_wrong_start_ack_is_mismatch tWrongAck 1 1 0 hk hb hb4
  exact ⟨hb, hb4, h1, h2, h3⟩

/-! ## Claim C4 -/

set_option maxRecDepth 8192 in
/-- C4: with correct acknowledgements, a correct header and both
    payloads complete, a corrupted stream-end footer still yields a
    success outcome carrying a fully populated SampleBuffer; the only
    trace of the bad footer is the false footerOk flag (the logged
    warning), in both scripts. -/
theorem c4_bad_footer_still_success (t : Transport) (fuel k : Nat)
    (hk : handshake t 0 fuel = some k)
    (h4 : tread t k 1 = DEVICE_ACK_START)
    (h5 : tread t (k + 1) 1 = DEVICE_TEST_SUCCESS)
    (h7 : tread t (k + 2) 1 = DEVICE_DATA_REQUEST_ACK)
    (hh : tread t (k + 3) DEVICE_DATA_STREAM_START.length = DEVICE_DATA_STREAM_START)
    (hi : (tread t (k + 4) bytes_per_array).length = bytes_per_array)
    (ha : (tread t (k + 5) bytes_per_array).length = bytes_per_array)
    (hf : tread t (k + 6) DEVICE_DATA_STREAM_END.length ≠ DEVICE_DATA_STREAM_END) :
    (∃ buf, (sessionE t fuel).outcome = some (.success buf false) ∧
      buf.times = time_axis ∧ buf.inputs.length = TEST_DATA_LENGTH ∧
      buf.angles.length = TEST_DATA_LENGTH) ∧
    (∃ buf, (sessionV t fuel).outcome = some (.success buf false) ∧
      buf.times = time_axis ∧ buf.inputs.length = TEST_DATA_LENGTH ∧
      buf.angles.length = TEST_DATA_LENGTH) := by
  have he := afterHandshakeE_success t k h4 h5 h7 hh hi ha
  have hv := afterHandshakeV_success t k h4 h5 h7 hh hi ha
  rw [if_neg hf] at he hv
  have hsE : (sessionE t fuel).outcome =
      some (.success
        ⟨time_axis, decodeChunks (tread t (k + 4) bytes_per_array),
          decodeChunks (tread t (k + 5) bytes_per_array)⟩ false) := by
    rw [sessionE_of_handshake_some t fuel k hk, he]
  have hsV : (sessionV t fuel).outcome =
      some (.success
        ⟨time_axis, decodeChunks (tread t (k + 4) bytes_per_array),
          decodeChunks (tread t (k + 5) bytes_per_array)⟩ false) := by
    rw [sessionV_of_handshake_some t fuel k hk, hv]
  refine ⟨⟨_, hsE, rfl, ?_, ?_⟩, ⟨_, hsV, rfl, ?_, ?_⟩⟩ <;>
    first
      | (rw [decodeChunks_length, hi]; decide)
      | (rw [decodeChunks_length, ha]; decide)

theorem c4_witness :
    tread tBadFooter 7 DEVICE_DATA_STREAM_END.length ≠ DEVICE_DATA_STREAM_END ∧
    (∃ buf, (sessionE tBadFooter 1).outcome = some (OutcomeE.success buf false) ∧
      buf.inputs.length = TEST_DATA_LENGTH ∧ buf.angles.length = TEST_DATA_LENGTH) ∧
    (∃ buf, (sessionV tBadFooter 1).outcome = some (OutcomeV.success buf false) ∧
      buf.inputs.length = TEST_DATA_LENGTH ∧ buf.angles.length = TEST_DATA_LENGTH) := by
  have hk : handshake tBadFooter 0 1 = some 1 := by decide
  have h4 : tread tBadFooter 1 1 = DEVICE_ACK_START := by decide
  have h5 : tread tBadFooter 2 1 = DEVICE_TEST_SUCCESS := by decide
  have h7 : tread tBadFooter 3 1 = DEVICE_DATA_REQUEST_ACK := by decide
  have hh : tread tBadFooter 4 DEVICE_DATA_STREAM_START.length = DEVICE_DATA_STREAM_START := by
    decide
  have hi : (tread tBadFooter 5 bytes_per_array).length = bytes_per_array := by
    rw [tBadFooter_read5, List.length_replicate]
  have ha : (tread tBadFooter 6 bytes_per_array).length = bytes_per_array := by
    rw [tBadFooter_read6, List.length_replicate]
  have hf : tread tBadFooter 7 DEVICE_DATA_STREAM_END.length ≠ DEVICE_DATA_STREAM_END := by
    decide
  obtain ⟨⟨b1, hb1, -, hb2, hb3⟩, ⟨b2, hc1, -, hc2, hc3⟩⟩ :=
    c4_bad_footer_still_success tBadFooter 1 1 hk h4 h5 h7 hh hi ha hf
  exact ⟨hf, ⟨b1, hb1, hb2, hb3⟩, ⟨b2, hc1, hc2, hc3⟩⟩

/-! ## Claim C5 -/

set_option maxRecDepth 8192 in
/-- C5: every successful session of either script carries a buffer with
    exactly TEST_DATA_LENGTH input values, TEST_DATA_LENGTH angle values
    and TEST_DATA_LENGTH timestamps — never fewer — and the i-th
    timestamp equals i * SAMPLE_PERIOD_SEC. -/
theorem c5_success_buffer_exact (t : Transport) (fuel : Nat) (buf : SampleBuffer) (fOk : Bool) :
    ((sessionE t fuel).outcome = some (.success buf fOk) →
      buf.inputs.length = TEST_DATA_LENGTH ∧ buf.angles.length = TEST_DATA_LENGTH ∧
      buf.times.length = TEST_DATA_LENGTH ∧
      ∀ i (hi : i < buf.times.length),
        buf.times.get ⟨i, hi⟩ = (i : ℚ) * SAMPLE_PERIOD_SEC) ∧
    ((sessionV t fuel).outcome = some (.success buf fOk) →
      buf.inputs.length = TEST_DATA_LENGTH ∧ buf.angles.length = TEST_DATA_LENGTH ∧
      buf.times.length = TEST_DATA_LENGTH ∧
      ∀ i (hi : i < buf.times.length),
        buf.times.get ⟨i, hi⟩ = (i : ℚ) * SAMPLE_PERIOD_SEC) := by
  obtain ⟨ts, ins, angs⟩ := buf
  constructor
  · intro h
    cases hk : handshake t 0 fuel with
    | none =>
        rw [sessionE_of_handshake_none t fuel hk] at h
        exact absurd h (by simp)
    | some k =>
        rw [sessionE_of_handshake_some t fuel k hk] at h
        replace h : (afterHandshakeE t k).outcome = .success ⟨ts, ins, angs⟩ fOk := by
          simpa using h
        obtain ⟨ht, hli, hla⟩ := afterHandshakeE_success_inv t k ⟨ts, ins, angs⟩ fOk h
        replace ht : ts = time_axis := ht
        subst ht
        exact ⟨hli, hla, time_axis_length, fun i hi => time_axis_get i hi⟩
  · intro h
    cases hk : handshake t 0 fuel with
    | none =>
        rw [sessionV_of_handshake_none t fuel hk] at h
        exact absurd h (by simp)
    | some k =>
        rw [sessionV_of_handshake_some t fuel k hk] at h
        replace h : (afterHandshakeV t k).outcome = .success ⟨ts, ins, angs⟩ fOk := by
          simpa using h
        obtain ⟨ht, hli, hla⟩ := afterHandshakeV_success_inv t k ⟨ts, ins, angs⟩ fOk h
        replace ht : ts = time_axis := ht
        subst ht
        exact ⟨hli, hla, time_axis_length, fun i hi => time_axis_get i hi⟩

theorem c5_witness :
    (∃ buf fOk, (sessionE tGood 1).outcome = some (OutcomeE.success buf fOk) ∧
      buf.inputs.length = TEST_DATA_LENGTH ∧ buf.angles.length = TEST_DATA_LENGTH ∧
      buf.times.length = TEST_DATA_LENGTH) ∧
    (∃ buf fOk, (sessionV tGood 1).outcome = some (OutcomeV.success buf fOk) ∧
      buf.inputs.length = TEST_DATA_LENGTH ∧ buf.angles.length = TEST_DATA_LENGTH ∧
      buf.times.length = TEST_DATA_LENGTH) := by
  have hk : handshake tGood 0 1 = some 1 := by decide
  have h4 : tread tGood 1 1 = DEVICE_ACK_START := by decide
  have h5 : tread tGood 2 1 = DEVICE_TEST_SUCCESS := by decide
  have h7 : tread tGood 3 1 = DEVICE_DATA_REQUEST_ACK := by decide
  have hh : tread tGood 4 DEVICE_DATA_STREAM_START.length = DEVICE_DATA_STREAM_START := by decide
  have hi : (tread tGood 5 bytes_per_array).length = bytes_per_array := by
    rw [tGood_read5, List.length_replicate]
  have ha : (tread tGood 6 bytes_per_array).length = bytes_per_array := by
    rw [tGood_read6, List.length_replicate]
  have heq := afterHandshakeE_success tGood 1 h4 h5 h7 hh hi ha
  have hveq := afterHandshakeV_success tGood 1 h4 h5 h7 hh hi ha
  have hsE : (sessionE tGood 1).outcome =
      some (.success
        ⟨time_axis, decodeChunks (tread tGood 5 bytes_per_array),
          decodeChunks (tread tGood 6 bytes_per_array)⟩
        (if tread tGood 7 DEVICE_DATA_STREAM_END.length = DEVICE_DATA_STREAM_END
          then true else false)) := by
    rw [sessionE_of_handshake_some tGood 1 1 hk, heq]
  have hsV : (sessionV tGood 1).outcome =
      some (.success
        ⟨time_axis, decodeChunks (tread tGood 5 bytes_per_array),
          decodeChunks (tread tGood 6 bytes_per_array)⟩
        (if tread tGood 7 DEVICE_DATA_STREAM_END.length = DEVICE_DATA_STREAM_END
          then true else false)) := by
    rw [sessionV_of_handshake_some tGood 1 1 hk, hveq]
  constructor
  · obtain ⟨hli, hla, hlt, -⟩ := (c5_success_buffer_exact tGood 1 _ _).1 hsE
    exact ⟨_, _, hsE, hli, hla, hlt⟩
  · obtain ⟨hli, hla, hlt, -⟩ := (c5_success_buffer_exact tGood 1 _ _).2 hsV
    exact ⟨_, _, hsV, hli, hla, hlt⟩

/-! ## Claim C7 -/

/-- C7: the handshake loop ignores any finite run of non-0x02 bytes and
    keeps reading (it exits as soon as 0x02 arrives, whatever junk came
    before), while after the handshake every control-byte mismatch — at
    the start-acknowledge, test-success or data-request-acknowledge
    step — makes both sessions abort at that step with no further read
    (readsUsed stops right after the one failed read). -/
theorem c7_handshake_polls_later_steps_abort (t : Transport) (m k fuel : Nat) :
    ((∀ j, j < m → tread t j 1 ≠ DEVICE_CHECK_CONNECTION) →
      tread t m 1 = DEVICE_CHECK_CONNECTION →
      handshake t 0 (m + fuel + 1) = some (m + 1)) ∧
    (handshake t 0 fuel = some k →
      (tread t k 1 ≠ DEVICE_ACK_START →
        (sessionE t fuel).outcome = some .ackStartFail ∧
        (afterHandshakeE t k).readsUsed = k + 1 ∧
        (sessionV t fuel).outcome = some .ackStartFail ∧
        (afterHandshakeV t k).readsUsed = k + 1) ∧
      (tread t k 1 = DEVICE_ACK_START →
        tread t (k + 1) 1 ≠ DEVICE_TEST_SUCCESS →
        (sessionE t fuel).outcome = some .testFail ∧
        (afterHandshakeE t k).readsUsed = k + 2 ∧
        (sessionV t fuel).outcome = some .testFail ∧
        (afterHandshakeV t k).readsUsed = k + 2) ∧
      (tread t k 1 = DEVICE_ACK_START →
        tread t (k + 1) 1 = DEVICE_TEST_SUCCESS →
        tread t (k + 2) 1 ≠ DEVICE_DATA_REQUEST_ACK →
        (sessionE t fuel).outcome = some .dataAckFail ∧
        (afterHandshakeE t k).readsUsed = k + 3 ∧
        (sessionV t fuel).outcome = some .dataAckFail ∧
        (afterHandshakeV t k).readsUsed = k + 3)) := by
  constructor
  · intro hmiss hhit
    have h := handshake_skip t m 0 fuel
      (by intro j hj; simpa using hmiss j hj) (by simpa using hhit)
    simpa using h
  · intro hk
    refine ⟨?_, ?_, ?_⟩
    · intro hne
      rw [sessionE_of_handshake_some t fuel k hk, sessionV_of_handshake_some t fuel k hk,
        afterHandshakeE_ackStartFail t k hne, afterHandshakeV_ackStartFail t k hne]
      exact ⟨rfl, rfl, rfl, rfl⟩
    · intro h4 hne
      rw [sessionE_of_handshake_some t fuel k hk, sessionV_of_handshake_some t fuel k hk,
        afterHandshakeE_testFail t k h4 hne, afterHandshakeV_testFail t k h4 hne]
      exact ⟨rfl, rfl, rfl, rfl⟩
    · intro h4 h5 hne
      rw [sessionE_of_handshake_some t fuel k hk, sessionV_of_handshake_some t fuel k hk,
        afterHandshakeE_dataAckFail t k h4 h5 hne, afterHandshakeV_dataAckFail t k h4 h5 hne]
      exact ⟨rfl, rfl, rfl, rfl⟩

theorem c7_witness :
    (∀ j, j < 2 → tread tChatter j 1 ≠ DEVICE_CHECK_CONNECTION) ∧
    tread tChatter 2 1 = DEVICE_CHECK_CONNECTION ∧
    handshake tChatter 0 3 = some 3 ∧
    tread tChatter 3 1 ≠ DEVICE_ACK_START ∧
    (sessionE tChatter 3).outcome = some OutcomeE.ackStartFail ∧
    (afterHandshakeE tChatter 3).readsUsed = 4 := by
  have h1 : ∀ j, j < 2 → tread tChatter j 1 ≠ DEVICE_CHECK_CONNECTION := by decide
  have h2 : tread tChatter 2 1 = DEVICE_CHECK_CONNECTION := by decide
  have h3 : handshake tChatter 0 3 = some 3 :=
    (c7_handshake_polls_later_steps_abort tChatter 2 3 0).1 h1 h2
  have h4 : tread tChatter 3 1 ≠ DEVICE_ACK_START := by decide
  obtain ⟨h5, h6, -, -⟩ :=
    ((c7_handshake_polls_later_steps_abort tChatter 2 3 3).2 h3).1 h4
  exact ⟨h1, h2, h3, h4, h5, h6⟩

/-! ## Claim C9 -/

/-- C9: at the start-acknowledge, test-success and data-request-
    acknowledge steps, a read that times out (returns no bytes) and a
    read that returns a wrong byte take the same if-branch and produce
    the same failure outcome in both scripts; nothing distinguishes the
    two cases. -/
theorem c9_timeout_and_mismatch_same_outcome (t : Transport) (fuel k b : Nat)
    (hk : handshake t 0 fuel = some k) :
    ((tread t k 1 = [] ∨ (tread t k 1 = [b] ∧ b ≠ 4)) →
      (sessionE t fuel).outcome = some .ackStartFail ∧
      (sessionV t fuel).outcome = some .ackStartFail) ∧
    (tread t k 1 = DEVICE_ACK_START →
      (tread t (k + 1) 1 = [] ∨ (tread t (k + 1) 1 = [b] ∧ b ≠ 5)) →
      (sessionE t fuel).outcome = some .testFail ∧
      (sessionV t fuel).outcome = some .testFail) ∧
    (tread t k 1 = DEVICE_ACK_START → tread t (k + 1) 1 = DEVICE_TEST_SUCCESS →
      (tread t (k + 2) 1 = [] ∨ (tread t (k + 2) 1 = [b] ∧ b ≠ 7)) →
      (sessionE t fuel).outcome = some .dataAckFail ∧
      (sessionV t fuel).outcome = some .dataAckFail) := by
  refine ⟨?_, ?_, ?_⟩
  · intro hd
    have hne : tread t k 1 ≠ DEVICE_ACK_START := by
      rcases hd with h | ⟨h, hb⟩
      · rw [h]; simp [DEVICE_ACK_START]
      · rw [h]; simp [DEVICE_ACK_START, hb]
    rw [sessionE_of_handshake_some t fuel k hk, sessionV_of_handshake_some t fuel k hk,
      afterHandshakeE_ackStartFail t k hne, afterHandshakeV_ackStartFail t k hne]
    exact ⟨rfl, rfl⟩
  · intro h4 hd
    have hne : tread t (k + 1) 1 ≠ DEVICE_TEST_SUCCESS := by
      rcases hd with h | ⟨h, hb⟩
      · rw [h]; simp [DEVICE_TEST_SUCCESS]
      · rw [h]; simp [DEVICE_TEST_SUCCESS, hb]
    rw [sessionE_of_handshake_some t fuel k hk, sessionV_of_handshake_some t fuel k hk,
      afterHandshakeE_testFail t k h4 hne, afterHandshakeV_testFail t k h4 hne]
    exact ⟨rfl, rfl⟩
  · intro h4 h5 hd
    have hne : tread t (k + 2) 1 ≠ DEVICE_DATA_REQUEST_ACK := by
      rcases hd with h | ⟨h, hb⟩
      · rw [h]; simp [DEVICE_DATA_REQUEST_ACK]
      · rw [h]; simp [DEVICE_DATA_REQUEST_ACK, hb]
    rw [sessionE_of_handshake_some t fuel k hk, sessionV_of_handshake_some t fuel k hk,
      afterHandshakeE_dataAckFail t k h4 h5 hne, afterHandshakeV_dataAckFail t k h4 h5 hne]
    exact ⟨rfl, rfl⟩

theorem c9_witness :
    (tread tSilent 1 1 = [] ∨ (tread tSilent 1 1 = [0] ∧ (0 : Nat) ≠ 4)) ∧
    (sessionE tSilent 1).outcome = some OutcomeE.ackStartFail ∧
    (tread tWrongAck 1 1 = [] ∨ (tread tWrongAck 1 1 = [0] ∧ (0 : Nat) ≠ 4)) ∧
    (sessionE tWrongAck 1).outcome = some OutcomeE.ackStartFail ∧
    (sessionE tSilent 1).outcome = (sessionE tWrongAck 1).outcome := by
  have hk1 : handshake tSilent 0 1 = some 1 := by decide
  have hk2 : handshake tWrongAck 0 1 = some 1 := by decide
  have hd1 : tread tSilent 1 1 = [] ∨ (tread tSilent 1 1 = [0] ∧ (0 : Nat) ≠ 4) :=
    Or.inl (by decide)
  have hd2 : tread tWrongAck 1 1 = [] ∨ (tread tWrongAck 1 1 = [0] ∧ (0 : Nat) ≠ 4) :=
    Or.inr ⟨by decide, by decide⟩
  obtain ⟨he1, -⟩ := (c9_timeout_and_mismatch_same_outcome tSilent 1 1 0 hk1).1 hd1
  obtain ⟨he2, -⟩ := (c9_timeout_and_mismatch_same_outcome tWrongAck 1 1 0 hk2).1 hd2
  exact ⟨hd1, he1, hd2, he2, by rw [he1, he2]⟩

/-! ## Claim C10 -/

set_option maxRecDepth 8192 in
theorem afterHandshakeE_ne_decodeError (t : Transport) (k : Nat) :
    (afterHandshakeE t k).outcome ≠ OutcomeE.decodeError := by
  by_cases h4 : tread t k 1 = DEVICE_ACK_START
  · by_cases h5 : tread t (k + 1) 1 = DEVICE_TEST_SUCCESS
    · by_cases h7 : tread t (k + 2) 1 = DEVICE_DATA_REQUEST_ACK
      · by_cases hh : tread t (k + 3) DEVICE_DATA_STREAM_START.length = DEVICE_DATA_STREAM_START
        · by_cases hi : (tread t (k + 4) bytes_per_array).length = bytes_per_array
          · by_cases ha : (tread t (k + 5) bytes_per_array).length = bytes_per_array
            · rw [afterHandshakeE_success t k h4 h5 h7 hh hi ha]
              simp
            · rw [afterHandshakeE_truncatedAngle t k h4 h5 h7 hh hi ha]
              simp
          · rw [afterHandshakeE_truncatedInput t k h4 h5 h7 hh hi]
            simp
        · rw [afterHandshakeE_headerFail t k h4 h5 h7 hh]
          simp
      · rw [afterHandshakeE_dataAckFail t k h4 h5 h7]
        simp
    · rw [afterHandshakeE_testFail t k h4 h5]
      simp
  · rw [afterHandshakeE_ackStartFail t k h4]
    simp

set_option maxRecDepth 8192 in
theorem afterHandshakeV_ne_decodeError (t : Transport) (k : Nat) :
    (afterHandshakeV t k).outcome ≠ OutcomeV.decodeError := by
  by_cases h4 : tread t k 1 = DEVICE_ACK_START
  · by_cases h5 : tread t (k + 1) 1 = DEVICE_TEST_SUCCESS
    · by_cases h7 : tread t (k + 2) 1 = DEVICE_DATA_REQUEST_ACK
      · by_cases hh : tread t (k + 3) DEVICE_DATA_STREAM_START.length = DEVICE_DATA_STREAM_START
        · by_cases hi : (tread t (k + 4) bytes_per_array).length = bytes_per_array
          · by_cases ha : (tread t (k + 5) bytes_per_array).length = bytes_per_array
            · rw [afterHandshakeV_success t k h4 h5 h7 hh hi ha]
              simp
            · rw [afterHandshakeV_truncated t k h4 h5 h7 hh (Or.inr ha)]
              simp
          · rw [afterHandshakeV_truncated t k h4 h5 h7 hh (Or.inl hi)]
            simp
        · rw [show afterHandshakeV t k =
            ⟨.headerFail, HOST_START_TEST ++ HOST_REQUEST_DATA, k + 4⟩ from by
              simp [afterHandshakeV, h4, h5, h7, hh]]
          simp
      · rw [afterHandshakeV_dataAckFail t k h4 h5 h7]
        simp
    · rw [afterHandshakeV_testFail t k h4 h5]
      simp
  · rw [afterHandshakeV_ackStartFail t k h4]
    simp

/-- C10: decoding is total on full-length buffers — every buffer of
    exactly TEST_DATA_LENGTH * 4 bytes decodes to exactly
    TEST_DATA_LENGTH float32 values, whatever its content — and
    consequently neither script can ever reach a struct.unpack error
    after its length guards: no session outcome is ever decodeError. -/
theorem c10_decode_total_after_guards (t : Transport) (fuel : Nat) :
    ((sessionE t fuel).outcome ≠ some OutcomeE.decodeError ∧
     (sessionV t fuel).outcome ≠ some OutcomeV.decodeError) ∧
    (∀ buffer : List Nat, buffer.length = TEST_DATA_LENGTH * 4 →
      ∃ vals, decodeFloatArray buffer TEST_DATA_LENGTH = some vals ∧
        vals.length = TEST_DATA_LENGTH) := by
  constructor
  · constructor
    · cases hk : handshake t 0 fuel with
      | none =>
          rw [sessionE_of_handshake_none t fuel hk]
          simp
      | some k =>
          rw [sessionE_of_handshake_some t fuel k hk]
          simpa using afterHandshakeE_ne_decodeError t k
    · cases hk : handshake t 0 fuel with
      | none =>
          rw [sessionV_of_handshake_none t fuel hk]
          simp
      | some k =>
          rw [sessionV_of_handshake_some t fuel k hk]
          simpa using afterHandshakeV_ne_decodeError t k
  · intro buffer hlen
    refine ⟨decodeChunks buffer, ?_, ?_⟩
    · unfold decodeFloatArray
      rw [if_pos hlen]
    · rw [decodeChunks_length, hlen]
      decide

theorem c10_witness :
    (List.replicate (TEST_DATA_LENGTH * 4) 0).length = TEST_DATA_LENGTH * 4 ∧
    (∃ vals, decodeFloatArray (List.replicate (TEST_DATA_LENGTH * 4) 0) TEST_DATA_LENGTH =
      some vals ∧ vals.length = TEST_DATA_LENGTH) ∧
    (sessionE tZero 1).outcome ≠ some OutcomeE.decodeError := by
  have hlen : (List.replicate (TEST_DATA_LENGTH * 4) 0).length = TEST_DATA_LENGTH * 4 := by
    simp
  obtain ⟨⟨he, -⟩, hdec⟩ := c10_decode_total_after_guards tZero 1
  exact ⟨hlen, hdec _ hlen, he⟩
